import Mathlib

/-!
A verification development for a recipe-sharing REST backend (Django /
Django REST Framework application, apps `recipes` and `users`).

The data model (recipes/models.py), the permission classes
(recipes/permissions.py), the custom exception (recipes/exceptions.py)
and the view-level create/update/destroy logic (recipes/views.py) are
shallowly embedded below.  Database tables are modelled as Lean lists of
records; `QuerySet.filter(...).first()` becomes `List.find?`; a raised
API exception becomes an error value.  A mutating view operation is
modelled as a function returning `Option ApiError × <new store>`: when
the error component is `some e`, the exception was raised before any
`serializer.save()` call in the source, so the returned store equals the
input store (the database is untouched).
-/

namespace RecipesApp


/-- HTTP methods that reach the view layer. -/

inductive Method
  | get | head | options | post | put | patch | delete
deriving DecidableEq, BEq

/-- `rest_framework.permissions.SAFE_METHODS = ('GET', 'HEAD', 'OPTIONS')`. -/

def SAFE_METHODS : List Method := [.get, .head, .options]

/-- `request.method in SAFE_METHODS`. -/

def Method.isSafe (m : Method) : Bool := SAFE_METHODS.contains m

/-- API exceptions raised by the views and permission classes:
`rest_framework.exceptions.NotFound`, `recipes.exceptions.ConflictException`,
`rest_framework.exceptions.ValidationError`. -/

inductive ApiError
  | notFound | conflict | validation
deriving DecidableEq

/-- HTTP status code attached to each exception: `NotFound.status_code = 404`
(framework default), `ConflictException.status_code = status.HTTP_409_CONFLICT`
(recipes/exceptions.py), `ValidationError.status_code = 400` (framework default). -/

def ApiError.statusCode : ApiError → Nat
  | .notFound => 404
  | .conflict => 409
  | .validation => 400

/-- `recipes.models.Category`: `title` and `slug` unique. -/

structure Category where
  id : Nat
  title : String
  slug : String
deriving DecidableEq

/-- `recipes.models.Recipe`: author and category are foreign keys, kept here
as ids; `published`/`updated` timestamps are irrelevant to the claims. -/

structure Recipe where
  id : Nat
  author_id : Nat
  title : String
  instructions : String
  slug : String
  category_id : Nat
deriving DecidableEq

/-- `recipes.models.Ingredient`: `quantity` is a `DecimalField(max_digits=6,
decimal_places=2)`, embedded as an exact rational. -/

structure Ingredient where
  id : Nat
  recipe_id : Nat
  name : String
  slug : String
  quantity : ℚ
  units_of_measurement : Option String
deriving DecidableEq

/-- `recipes.models.RecipeImage`: the image payload itself plays no part in
any claim, only its existence does. -/

structure RecipeImage where
  id : Nat
  recipe_id : Nat
deriving DecidableEq

/-- `recipes.models.Review`: `unique_together = ('recipe', 'author')`. -/

structure Review where
  id : Nat
  recipe_id : Nat
  author_id : Nat
  content : String
deriving DecidableEq

/-- `recipes.models.Rating`: `unique_together = ('recipe', 'author')`;
`value` is a `PositiveSmallIntegerField(choices=rating_choices)`.  The raw
request value is an integer, so `value` is embedded as `Int`. -/

structure Rating where
  id : Nat
  recipe_id : Nat
  author_id : Nat
  value : Int
deriving DecidableEq

/-! ## Permission classes (recipes/permissions.py)

`request.user` is modelled as `Option Nat`: `some uid` is an authenticated
user with primary key `uid`, `none` is Django's `AnonymousUser` (so
`request.user.is_authenticated` is `Option.isSome`, and comparing a model
author against an anonymous user is always false).  A raised `NotFound`
becomes `Except.error ApiError.notFound`; a boolean verdict becomes
`Except.ok b`. -/

/-- `NestedIsAuthenticatedOrReadOnly.has_permission`:
`Recipe.objects.filter(id=recipe_id).first()`; raise `NotFound` when absent;
safe methods allowed; otherwise require `request.user.is_authenticated`. -/

def NestedIsAuthenticatedOrReadOnly.has_permission
    (recipes : List Recipe) (recipe_pk : Nat) (method : Method)
    (user : Option Nat) : Except ApiError Bool :=
  match recipes.find? (fun r => r.id == recipe_pk) with
  | none => .error .notFound
  | some _ =>
    if method.isSafe then .ok true
    else .ok user.isSome

/-- `NestedIsAuthorOrReadOnly.has_object_permission`: same recipe lookup and
`NotFound`, safe methods allowed, otherwise `obj.author == request.user`
(`obj_author_id` is the author id of the accessed object). -/

def NestedIsAuthorOrReadOnly.has_object_permission
    (recipes : List Recipe) (recipe_pk : Nat) (method : Method)
    (user : Option Nat) (obj_author_id : Nat) : Except ApiError Bool :=
  match recipes.find? (fun r => r.id == recipe_pk) with
  | none => .error .notFound
  | some _ =>
    if method.isSafe then .ok true
    else .ok (user == some obj_author_id)

/-- `IsRecipeAuthorOrReadOnly.has_permission`: recipe lookup and `NotFound`,
safe methods allowed, otherwise `recipe.author == request.user`. -/

def IsRecipeAuthorOrReadOnly.has_permission
    (recipes : List Recipe) (recipe_pk : Nat) (method : Method)
    (user : Option Nat) : Except ApiError Bool :=
  match recipes.find? (fun r => r.id == recipe_pk) with
  | none => .error .notFound
  | some recipe =>
    if method.isSafe then .ok true
    else .ok (user == some recipe.author_id)

/-- `IsRecipeAuthorOrReadOnly.has_object_permission`: recipe lookup and
`NotFound`, safe methods allowed, otherwise `obj.recipe.author == request.user`
(`obj_recipe_author_id` is the author id of the recipe the object belongs to). -/

def IsRecipeAuthorOrReadOnly.has_object_permission
    (recipes : List Recipe) (recipe_pk : Nat) (method : Method)
    (user : Option Nat) (obj_recipe_author_id : Nat) : Except ApiError Bool :=
  match recipes.find? (fun r => r.id == recipe_pk) with
  | none => .error .notFound
  | some _ =>
    if method.isSafe then .ok true
    else .ok (user == some obj_recipe_author_id)

/-! ## Slugification (django.template.defaultfilters.slugify)

`slugify(value)` NFKD-normalises and drops non-ASCII characters, lowercases,
removes every character that is not an ASCII word character, whitespace or a
hyphen, replaces each run of hyphens/whitespace by a single hyphen and strips
leading and trailing hyphens and underscores.  NFKD normalisation is the
identity on the ASCII characters that survive the ASCII filter, so it is
embedded as the ASCII filter alone. -/

/-- ASCII whitespace recognised by the whitespace class of Python regular
expressions: space, tab, newline, carriage return, vertical tab, form feed. -/

def isPySpace (c : Char) : Bool :=
  c == ' ' || c == '\t' || c == '\n' || c == '\r' ||
    c == Char.ofNat 11 || c == Char.ofNat 12

/-- An ASCII word character (letter, digit or underscore). -/

def isWordChar (c : Char) : Bool := c.isAlphanum || c == '_'

/-- Replace every maximal run of hyphens/whitespace by a single hyphen; the
boolean records whether the previous character belonged to such a run. -/

def collapseSeparators : Bool → List Char → List Char
  | _, [] => []
  | prevSep, c :: rest =>
    if isPySpace c || c == '-' then
      if prevSep then collapseSeparators true rest
      else '-' :: collapseSeparators true rest
    else c :: collapseSeparators false rest

/-- Python `str.strip("-_")`: drop hyphens and underscores from both ends. -/

def stripHyphenUnderscore (l : List Char) : List Char :=
  ((l.dropWhile (fun c => c == '-' || c == '_')).reverse.dropWhile
      (fun c => c == '-' || c == '_')).reverse

/-- `django.template.defaultfilters.slugify` (with `allow_unicode=False`). -/

def slugify (s : String) : String :=
  let ascii := s.toList.filter (fun c => c.toNat < 128)
  let kept := (ascii.map Char.toLower).filter
      (fun c => isWordChar c || isPySpace c || c == '-')
  String.mk (stripHyphenUnderscore (collapseSeparators false kept))

/-- `Recipe.save` (recipes/models.py): `self.slug = slugify(self.title)` then
the ordinary row write. -/

def Recipe.save (r : Recipe) : Recipe :=
  { r with slug := slugify r.title }

/-- `Ingredient.save` (recipes/models.py): `self.slug = slugify(self.name)`
and `self.name = self.name.lower()` before the row write (the slug is computed
from the name as received, the stored name is its lowercase form). -/

def Ingredient.save (i : Ingredient) : Ingredient :=
  { i with slug := slugify i.name, name := i.name.toLower }

/-! ## Review and Rating creation (recipes/views.py) -/

/-- `ReviewViewSet.perform_create`: look for an existing review with
`author__id=user_pk` and `recipe__id=recipe_pk`; if one exists raise
`ConflictException` (the store is untouched), otherwise
`serializer.save(recipe_id=recipe_pk, author_id=user_pk)` appends the row. -/

def ReviewViewSet.perform_create
    (reviews : List Review) (recipe_pk user_pk new_id : Nat)
    (content : String) : Option ApiError × List Review :=
  match reviews.find? (fun rv => rv.author_id == user_pk && rv.recipe_id == recipe_pk) with
  | some _ => (some .conflict, reviews)
  | none =>
    (none, reviews ++
      [{ id := new_id, recipe_id := recipe_pk, author_id := user_pk, content := content }])

/-- `RatingViewSet.perform_create`: same shape as review creation, raising
`ConflictException` when the (recipe, author) pair already holds a rating. -/

def RatingViewSet.perform_create
    (ratings : List Rating) (recipe_pk user_pk new_id : Nat)
    (value : Int) : Option ApiError × List Rating :=
  match ratings.find? (fun rt => rt.author_id == user_pk && rt.recipe_id == recipe_pk) with
  | some _ => (some .conflict, ratings)
  | none =>
    (none, ratings ++
      [{ id := new_id, recipe_id := recipe_pk, author_id := user_pk, value := value }])

/-- The store invariant behind `Review.Meta.unique_together = ('recipe',
'author')`: no two rows share the (recipe, author) pair. -/

def reviewUniquePerPair (l : List Review) : Prop :=
  l.Pairwise (fun a b => ¬(a.recipe_id = b.recipe_id ∧ a.author_id = b.author_id))

/-- The store invariant behind `Rating.Meta.unique_together = ('recipe',
'author')`: no two rows share the (recipe, author) pair. -/

def ratingUniquePerPair (l : List Rating) : Prop :=
  l.Pairwise (fun a b => ¬(a.recipe_id = b.recipe_id ∧ a.author_id = b.author_id))

/-! ## Ingredient creation and update (recipes/views.py) -/

/-- `IngredientViewSet.perform_create`: lowercase the requested name, look for
an ingredient with that name in the same recipe
(`Q(name=ingredient_name) & Q(recipe__id=recipe_pk)`, `.first()`); if found
raise `ValidationError`, otherwise `serializer.save(recipe_id=recipe_pk)`
stores the new row through `Ingredient.save`. -/

def IngredientViewSet.perform_create
    (ingredients : List Ingredient) (recipe_pk new_id : Nat)
    (req_name : String) (req_quantity : ℚ) (req_units : Option String) :
    Option ApiError × List Ingredient :=
  match ingredients.find? (fun i => i.name == req_name.toLower && i.recipe_id == recipe_pk) with
  | some _ => (some .validation, ingredients)
  | none =>
    (none, ingredients ++
      [Ingredient.save
        { id := new_id, recipe_id := recipe_pk, name := req_name, slug := "",
          quantity := req_quantity, units_of_measurement := req_units }])

/-- `IngredientViewSet.perform_update`: lowercase the requested name, look for
an ingredient with that name in the same recipe; if one is found and it is a
different row than the updated one (Django model equality is primary-key
equality) raise `ValidationError`, otherwise write the updated row through
`Ingredient.save`. -/

def IngredientViewSet.perform_update
    (ingredients : List Ingredient) (recipe_pk target_id : Nat)
    (req_name : String) (req_quantity : ℚ) (req_units : Option String) :
    Option ApiError × List Ingredient :=
  match ingredients.find? (fun i => i.recipe_id == recipe_pk && i.name == req_name.toLower) with
  | some other =>
    if other.id != target_id then (some .validation, ingredients)
    else
      (none, ingredients.map (fun i =>
        if i.id == target_id then
          Ingredient.save
            { i with
                name := req_name
                quantity := req_quantity
                units_of_measurement := req_units }
        else i))
  | none =>
    (none, ingredients.map (fun i =>
      if i.id == target_id then
        Ingredient.save
          { i with
              name := req_name
              quantity := req_quantity
              units_of_measurement := req_units }
      else i))

/-- The store invariant "ingredient names unique within a recipe": no two
rows share the (recipe, name) pair.  Stored names are lowercase (written by
`Ingredient.save`), so this is case-insensitive uniqueness. -/

def ingredientNamesUnique (l : List Ingredient) : Prop :=
  l.Pairwise (fun a b => ¬(a.recipe_id = b.recipe_id ∧ a.name = b.name))

/-- A concrete stored ingredient used in the witness below. -/

def saltIngredient : Ingredient :=
  { id := 1, recipe_id := 5, name := "salt", slug := "salt",
    quantity := 1, units_of_measurement := some "gm" }

/-! ## Ingredient quantity validation -/

/-- `django.core.validators.MinValueValidator(limit)`: the value is rejected
exactly when it is strictly below the limit, so validation passes iff
`limit ≤ value`. -/

def MinValueValidator (limit value : ℚ) : Bool := decide (limit ≤ value)

/-- `Ingredient.quantity` carries `validators=[MinValueValidator(0)]`
(recipes/models.py). -/

def Ingredient.validate_quantity (q : ℚ) : Bool := MinValueValidator 0 q

/-! ## Recipe images (recipes/views.py RecipeImageViewSet) -/

/-- `RecipeImageViewSet.perform_create`: count the images of the recipe named
in the URL; when the count equals `max_number_of_images = 3` raise
`ValidationError` (nothing stored), otherwise
`serializer.save(recipe_id=recipe_pk)` appends the row. -/

def RecipeImageViewSet.perform_create
    (images : List RecipeImage) (recipe_pk new_id : Nat) :
    Option ApiError × List RecipeImage :=
  if (images.filter (fun im => im.recipe_id == recipe_pk)).length == 3 then
    (some .validation, images)
  else
    (none, images ++ [{ id := new_id, recipe_id := recipe_pk }])

/-- `RecipeImageViewSet` destroy (via `mixins.DestroyModelMixin`): delete the
image with primary key `pk` from the queryset filtered by
`recipe__id=recipe_pk`. -/

def RecipeImageViewSet.destroy
    (images : List RecipeImage) (recipe_pk pk : Nat) : List RecipeImage :=
  images.filter (fun im => !(im.id == pk && im.recipe_id == recipe_pk))

/-- Number of stored images belonging to a recipe. -/

def imageCount (images : List RecipeImage) (recipe_pk : Nat) : Nat :=
  (images.filter (fun im => im.recipe_id == recipe_pk)).length

/-! ## Category deletion (recipes/views.py CategoryViewSet.destroy) -/

/-- `CategoryViewSet.destroy`: when `Recipe.objects.filter(category_id=pk)`
is nonempty raise `ConflictException` (category and recipes untouched),
otherwise delegate to the framework destroy, which deletes the category row. -/

def CategoryViewSet.destroy
    (categories : List Category) (recipes : List Recipe) (pk : Nat) :
    Option ApiError × List Category × List Recipe :=
  if !(recipes.filter (fun r => r.category_id == pk)).isEmpty then
    (some .conflict, categories, recipes)
  else
    (none, categories.filter (fun c => !(c.id == pk)), recipes)

/-! ## Average rating (recipes/views.py RecipeViewSet.get_average_rating) -/

/-- The `Avg` SQL aggregate over a list of values: `NULL` (here `none`) on an
empty list, otherwise the arithmetic mean. -/

def Avg (values : List ℚ) : Option ℚ :=
  if values.isEmpty then none else some (values.sum / values.length)

/-- `RecipeViewSet.get_average_rating`:
`Rating.objects.filter(recipe=recipe).aggregate(avg_rating=Avg('value'))`,
the `avg_rating` entry of the response body. -/

def RecipeViewSet.get_average_rating
    (ratings : List Rating) (recipe_id : Nat) : Option ℚ :=
  Avg ((ratings.filter (fun rt => rt.recipe_id == recipe_id)).map
    (fun rt => (rt.value : ℚ)))

/-! ## Rating value validation (recipes/models.py Rating) -/

/-- `Rating.rating_choices`: the eleven (stored value, display) pairs
0 through 10. -/

def Rating.rating_choices : List (Int × Int) :=
  [(0, 0), (1, 1), (2, 2), (3, 3), (4, 4), (5, 5),
   (6, 6), (7, 7), (8, 8), (9, 9), (10, 10)]

/-- Choice validation for `Rating.value`
(`PositiveSmallIntegerField(choices=rating_choices)`): a submitted value is
admitted exactly when it is one of the stored values of `rating_choices`. -/

def Rating.validate_value (v : Int) : Bool :=
  Rating.rating_choices.any (fun p => p.1 == v)

/-! ## Theorems -/

/-- Claim C1: for every mutating request (POST/PUT/PATCH/DELETE) on an
Ingredient or RecipeImage nested under a Recipe, `IsRecipeAuthorOrReadOnly`
(the sole permission class of `IngredientViewSet` and `RecipeImageViewSet`)
grants access if and only if the requesting user is the author of the parent
Recipe — both at the view level (`has_permission`) and at the object level
(`has_object_permission`, whose object belongs to that same parent recipe,
since the queryset is filtered by `recipe__id=recipe_pk`); for every safe
method the check grants access to any user, the parent recipe existing. -/

theorem isRecipeAuthorOrReadOnly_grants_iff_author
    (recipes : List Recipe) (recipe_pk : Nat) (method : Method)
    (user : Option Nat) (recipe : Recipe)
    (hfind : recipes.find? (fun r => r.id == recipe_pk) = some recipe) :
    (method.isSafe = false →
      ((IsRecipeAuthorOrReadOnly.has_permission recipes recipe_pk method user
          = Except.ok true ↔ user = some recipe.author_id)
        ∧ (IsRecipeAuthorOrReadOnly.has_object_permission recipes recipe_pk method user
            recipe.author_id = Except.ok true ↔ user = some recipe.author_id)))
    ∧ (method.isSafe = true →
      (IsRecipeAuthorOrReadOnly.has_permission recipes recipe_pk method user
          = Except.ok true
        ∧ IsRecipeAuthorOrReadOnly.has_object_permission recipes recipe_pk method user
            recipe.author_id = Except.ok true)) := by
  unfold IsRecipeAuthorOrReadOnly.has_permission
    IsRecipeAuthorOrReadOnly.has_object_permission
  rw [hfind]
  constructor
  · intro hmut
    simp [hmut]
  · intro hsafe
    simp [hsafe]

/-- Concrete instance of `isRecipeAuthorOrReadOnly_grants_iff_author`: one
stored recipe with id 1 and author 7, a POST by user 7. -/

theorem isRecipeAuthorOrReadOnly_grants_iff_author_witness :
    (Method.post.isSafe = false →
      ((IsRecipeAuthorOrReadOnly.has_permission
          [⟨1, 7, "pie", "bake it", "pie", 2⟩] 1 .post (some 7)
          = Except.ok true ↔ (some 7 : Option Nat) = some 7)
        ∧ (IsRecipeAuthorOrReadOnly.has_object_permission
            [⟨1, 7, "pie", "bake it", "pie", 2⟩] 1 .post (some 7) 7
            = Except.ok true ↔ (some 7 : Option Nat) = some 7)))
    ∧ (Method.post.isSafe = true →
      (IsRecipeAuthorOrReadOnly.has_permission
          [⟨1, 7, "pie", "bake it", "pie", 2⟩] 1 .post (some 7) = Except.ok true
        ∧ IsRecipeAuthorOrReadOnly.has_object_permission
            [⟨1, 7, "pie", "bake it", "pie", 2⟩] 1 .post (some 7) 7
            = Except.ok true)) :=
  isRecipeAuthorOrReadOnly_grants_iff_author
    [⟨1, 7, "pie", "bake it", "pie", 2⟩] 1 .post (some 7)
    ⟨1, 7, "pie", "bake it", "pie", 2⟩ rfl

/-- Claim C10: for every request to a nested resource whose URL names a
recipe id with no existing Recipe, each of the nested permission checks
(`IsRecipeAuthorOrReadOnly.has_permission` / `has_object_permission`,
`NestedIsAuthenticatedOrReadOnly.has_permission`,
`NestedIsAuthorOrReadOnly.has_object_permission`) raises `NotFound` — for
every method, safe ones included, and every user, so before any
authentication or authorship check. -/

theorem nested_permissions_raise_not_found
    (recipes : List Recipe) (recipe_pk : Nat) (method : Method)
    (user : Option Nat) (obj_author_id : Nat)
    (hmiss : recipes.find? (fun r => r.id == recipe_pk) = none) :
    IsRecipeAuthorOrReadOnly.has_permission recipes recipe_pk method user
        = Except.error ApiError.notFound
    ∧ IsRecipeAuthorOrReadOnly.has_object_permission recipes recipe_pk method user
        obj_author_id = Except.error ApiError.notFound
    ∧ NestedIsAuthenticatedOrReadOnly.has_permission recipes recipe_pk method user
        = Except.error ApiError.notFound
    ∧ NestedIsAuthorOrReadOnly.has_object_permission recipes recipe_pk method user
        obj_author_id = Except.error ApiError.notFound := by
  unfold IsRecipeAuthorOrReadOnly.has_permission
    IsRecipeAuthorOrReadOnly.has_object_permission
    NestedIsAuthenticatedOrReadOnly.has_permission
    NestedIsAuthorOrReadOnly.has_object_permission
  rw [hmiss]
  exact ⟨rfl, rfl, rfl, rfl⟩

/-- Concrete instance of `nested_permissions_raise_not_found`: empty recipe
store, a GET (safe method) by an anonymous user on recipe id 5. -/

theorem nested_permissions_raise_not_found_witness :
    IsRecipeAuthorOrReadOnly.has_permission [] 5 .get none
        = Except.error ApiError.notFound
    ∧ IsRecipeAuthorOrReadOnly.has_object_permission [] 5 .get none 3
        = Except.error ApiError.notFound
    ∧ NestedIsAuthenticatedOrReadOnly.has_permission [] 5 .get none
        = Except.error ApiError.notFound
    ∧ NestedIsAuthorOrReadOnly.has_object_permission [] 5 .get none 3
        = Except.error ApiError.notFound :=
  nested_permissions_raise_not_found [] 5 .get none 3 rfl

/-- Claim C8: after every save of a Recipe its slug equals the slugification
of its (unchanged) title, and the saved row does not depend on whatever slug
the instance carried before — the slug is recomputed from the title on each
save, so it always stays in sync with the current title. -/

theorem recipe_slug_synced_with_title (r : Recipe) (s : String) :
    (Recipe.save r).slug = slugify (Recipe.save r).title
    ∧ (Recipe.save r).title = r.title
    ∧ Recipe.save { r with slug := s } = Recipe.save r := by
  refine ⟨rfl, rfl, ?_⟩
  simp [Recipe.save]

/-- Claim C2: for every user and every recipe the store holds at most one
Review and at most one Rating by that user for that recipe: when a row for
the (recipe, author) pair already exists, `perform_create` raises the 409
conflict and returns the store unchanged; and starting from a store
satisfying the uniqueness invariant, `perform_create` (whichever branch it
takes) returns a store satisfying it again. -/

theorem review_rating_unique_per_pair
    (reviews : List Review) (ratings : List Rating)
    (recipe_pk user_pk rv_id rt_id : Nat) (content : String) (value : Int)
    (hrv : reviewUniquePerPair reviews) (hrt : ratingUniquePerPair ratings) :
    ((∃ rv ∈ reviews, rv.recipe_id = recipe_pk ∧ rv.author_id = user_pk) →
        ReviewViewSet.perform_create reviews recipe_pk user_pk rv_id content
          = (some ApiError.conflict, reviews)
        ∧ ApiError.conflict.statusCode = 409)
    ∧ ((∃ rt ∈ ratings, rt.recipe_id = recipe_pk ∧ rt.author_id = user_pk) →
        RatingViewSet.perform_create ratings recipe_pk user_pk rt_id value
          = (some ApiError.conflict, ratings)
        ∧ ApiError.conflict.statusCode = 409)
    ∧ reviewUniquePerPair
        (ReviewViewSet.perform_create reviews recipe_pk user_pk rv_id content).2
    ∧ ratingUniquePerPair
        (RatingViewSet.perform_create ratings recipe_pk user_pk rt_id value).2 := by
  refine ⟨?_, ?_, ?_, ?_⟩
  · rintro ⟨rv, hmem, hrec, haut⟩
    unfold ReviewViewSet.perform_create
    cases hf : reviews.find? (fun x => x.author_id == user_pk && x.recipe_id == recipe_pk) with
    | none =>
      rw [List.find?_eq_none] at hf
      exact absurd (by simp [haut, hrec]) (hf rv hmem)
    | some _ => exact ⟨rfl, rfl⟩
  · rintro ⟨rt, hmem, hrec, haut⟩
    unfold RatingViewSet.perform_create
    cases hf : ratings.find? (fun x => x.author_id == user_pk && x.recipe_id == recipe_pk) with
    | none =>
      rw [List.find?_eq_none] at hf
      exact absurd (by simp [haut, hrec]) (hf rt hmem)
    | some _ => exact ⟨rfl, rfl⟩
  · unfold ReviewViewSet.perform_create
    cases hf : reviews.find? (fun x => x.author_id == user_pk && x.recipe_id == recipe_pk) with
    | none =>
      rw [List.find?_eq_none] at hf
      unfold reviewUniquePerPair at hrv ⊢
      rw [List.pairwise_append]
      refine ⟨hrv, List.pairwise_singleton _ _, ?_⟩
      intro a ha b hb
      rw [List.mem_singleton] at hb
      subst hb
      rintro ⟨hrec, haut⟩
      exact hf a ha (by simp [hrec, haut])
    | some _ => exact hrv
  · unfold RatingViewSet.perform_create
    cases hf : ratings.find? (fun x => x.author_id == user_pk && x.recipe_id == recipe_pk) with
    | none =>
      rw [List.find?_eq_none] at hf
      unfold ratingUniquePerPair at hrt ⊢
      rw [List.pairwise_append]
      refine ⟨hrt, List.pairwise_singleton _ _, ?_⟩
      intro a ha b hb
      rw [List.mem_singleton] at hb
      subst hb
      rintro ⟨hrec, haut⟩
      exact hf a ha (by simp [hrec, haut])
    | some _ => exact hrt

/-- Concrete instance of `review_rating_unique_per_pair`: a store holding one
review and one rating by user 7 on recipe 4; the second create for the same
pair yields the 409 conflict and leaves the store unchanged. -/

theorem review_rating_unique_per_pair_witness :
    ((∃ rv ∈ [({ id := 1, recipe_id := 4, author_id := 7, content := "good" } : Review)],
        rv.recipe_id = 4 ∧ rv.author_id = 7) →
      ReviewViewSet.perform_create
          [{ id := 1, recipe_id := 4, author_id := 7, content := "good" }] 4 7 2 "again"
        = (some ApiError.conflict,
            [{ id := 1, recipe_id := 4, author_id := 7, content := "good" }])
      ∧ ApiError.conflict.statusCode = 409)
    ∧ ((∃ rt ∈ [({ id := 1, recipe_id := 4, author_id := 7, value := 9 } : Rating)],
        rt.recipe_id = 4 ∧ rt.author_id = 7) →
      RatingViewSet.perform_create
          [{ id := 1, recipe_id := 4, author_id := 7, value := 9 }] 4 7 2 5
        = (some ApiError.conflict,
            [{ id := 1, recipe_id := 4, author_id := 7, value := 9 }])
      ∧ ApiError.conflict.statusCode = 409)
    ∧ reviewUniquePerPair
        (ReviewViewSet.perform_create
          [{ id := 1, recipe_id := 4, author_id := 7, content := "good" }] 4 7 2 "again").2
    ∧ ratingUniquePerPair
        (RatingViewSet.perform_create
          [{ id := 1, recipe_id := 4, author_id := 7, value := 9 }] 4 7 2 5).2 :=
  review_rating_unique_per_pair
    [{ id := 1, recipe_id := 4, author_id := 7, content := "good" }]
    [{ id := 1, recipe_id := 4, author_id := 7, value := 9 }]
    4 7 2 2 "again" 5
    (List.pairwise_singleton _ _) (List.pairwise_singleton _ _)

/-- Under `ingredientNamesUnique`, two stored ingredients of the same recipe
with the same name are the same row. -/

theorem ingredient_key_unique {l : List Ingredient} (h : ingredientNamesUnique l)
    {x y : Ingredient} (hx : x ∈ l) (hy : y ∈ l)
    (hr : x.recipe_id = y.recipe_id) (hn : x.name = y.name) : x = y := by
  induction l with
  | nil => cases hx
  | cons a t ih =>
    rw [ingredientNamesUnique, List.pairwise_cons] at h
    rcases List.mem_cons.mp hx with hx1 | hx1
    · rcases List.mem_cons.mp hy with hy1 | hy1
      · rw [hx1, hy1]
      · subst hx1
        exact absurd ⟨hr, hn⟩ (h.1 y hy1)
    · rcases List.mem_cons.mp hy with hy1 | hy1
      · subst hy1
        exact absurd ⟨hr.symm, hn.symm⟩ (h.1 x hx1)
      · exact ih h.2 hx1 hy1

/-- Claim C3: within every recipe, ingredient names are unique
case-insensitively.  Creating an ingredient whose lowercased name equals the
name of an existing ingredient of the same recipe fails with a validation
error, the store unchanged; a successful create preserves the uniqueness
invariant; updating fails with a validation error when a different row of the
same recipe already bears the lowercased new name; and updating a row to its
own current name is permitted (no error). -/

theorem ingredient_names_unique_case_insensitive
    (ingredients : List Ingredient) (recipe_pk target_id new_id : Nat)
    (req_name : String) (q : ℚ) (u : Option String)
    (huniq : ingredientNamesUnique ingredients) :
    ((∃ i ∈ ingredients, i.recipe_id = recipe_pk ∧ i.name = req_name.toLower) →
        IngredientViewSet.perform_create ingredients recipe_pk new_id req_name q u
          = (some ApiError.validation, ingredients))
    ∧ ingredientNamesUnique
        (IngredientViewSet.perform_create ingredients recipe_pk new_id req_name q u).2
    ∧ ((∃ i ∈ ingredients,
          i.recipe_id = recipe_pk ∧ i.name = req_name.toLower ∧ i.id ≠ target_id) →
        IngredientViewSet.perform_update ingredients recipe_pk target_id req_name q u
          = (some ApiError.validation, ingredients))
    ∧ (∀ tgt ∈ ingredients, tgt.id = target_id → tgt.recipe_id = recipe_pk →
        tgt.name = req_name.toLower →
        (IngredientViewSet.perform_update ingredients recipe_pk target_id req_name q u).1
          = none) := by
  refine ⟨?_, ?_, ?_, ?_⟩
  · rintro ⟨i, hmem, hrec, hname⟩
    unfold IngredientViewSet.perform_create
    cases hf : ingredients.find?
        (fun x => x.name == req_name.toLower && x.recipe_id == recipe_pk) with
    | none =>
      rw [List.find?_eq_none] at hf
      exact absurd (by simp [hname, hrec]) (hf i hmem)
    | some _ => rfl
  · unfold IngredientViewSet.perform_create
    cases hf : ingredients.find?
        (fun x => x.name == req_name.toLower && x.recipe_id == recipe_pk) with
    | none =>
      rw [List.find?_eq_none] at hf
      unfold ingredientNamesUnique at huniq ⊢
      rw [List.pairwise_append]
      refine ⟨huniq, List.pairwise_singleton _ _, ?_⟩
      intro a ha b hb
      rw [List.mem_singleton] at hb
      subst hb
      rintro ⟨hrec, hname⟩
      simp only [Ingredient.save] at hrec hname
      exact hf a ha (by simp [hname, hrec])
    | some _ => exact huniq
  · rintro ⟨i, hmem, hrec, hname, hid⟩
    unfold IngredientViewSet.perform_update
    cases hf : ingredients.find?
        (fun x => x.recipe_id == recipe_pk && x.name == req_name.toLower) with
    | none =>
      rw [List.find?_eq_none] at hf
      exact absurd (by simp [hname, hrec]) (hf i hmem)
    | some other =>
      have hpred := List.find?_some hf
      have hother : other ∈ ingredients := List.mem_of_find?_eq_some hf
      simp only [Bool.and_eq_true, beq_iff_eq] at hpred
      have : other = i :=
        ingredient_key_unique huniq hother hmem
          (by rw [hpred.1, hrec]) (by rw [hpred.2, hname])
      subst this
      simp [hid]
  · intro tgt hmem hid hrec hname
    unfold IngredientViewSet.perform_update
    cases hf : ingredients.find?
        (fun x => x.recipe_id == recipe_pk && x.name == req_name.toLower) with
    | none => rfl
    | some other =>
      have hpred := List.find?_some hf
      have hother : other ∈ ingredients := List.mem_of_find?_eq_some hf
      simp only [Bool.and_eq_true, beq_iff_eq] at hpred
      have : other = tgt :=
        ingredient_key_unique huniq hother hmem
          (by rw [hpred.1, hrec]) (by rw [hpred.2, hname])
      subst this
      simp [hid]

/-- Concrete instance of `ingredient_names_unique_case_insensitive`: one
stored ingredient "salt" of recipe 5; creating "Salt" again conflicts,
updating row 1 to "Salt" (its own name, case-changed) is permitted. -/

theorem ingredient_names_unique_case_insensitive_witness :
    ((∃ i ∈ [saltIngredient], i.recipe_id = 5 ∧ i.name = "Salt".toLower) →
      IngredientViewSet.perform_create [saltIngredient] 5 2 "Salt" 1 none
        = (some ApiError.validation, [saltIngredient]))
    ∧ ingredientNamesUnique
        (IngredientViewSet.perform_create [saltIngredient] 5 2 "Salt" 1 none).2
    ∧ ((∃ i ∈ [saltIngredient],
          i.recipe_id = 5 ∧ i.name = "Salt".toLower ∧ i.id ≠ 1) →
      IngredientViewSet.perform_update [saltIngredient] 5 1 "Salt" 1 none
        = (some ApiError.validation, [saltIngredient]))
    ∧ (∀ tgt ∈ [saltIngredient], tgt.id = 1 → tgt.recipe_id = 5 →
        tgt.name = "Salt".toLower →
        (IngredientViewSet.perform_update [saltIngredient] 5 1 "Salt" 1 none).1
          = none) :=
  ingredient_names_unique_case_insensitive [saltIngredient]
    5 1 2 "Salt" 1 none (List.pairwise_singleton _ _)

/-- Claim C7, counterexample: the claim says every quantity less than or
equal to 0 is rejected by validation, but the validator is
`MinValueValidator(0)`, which accepts the quantity 0. -/

theorem ingredient_quantity_claim_false :
    ¬ (∀ q : ℚ, q ≤ 0 → Ingredient.validate_quantity q = false) := by
  intro h
  have h0 := h 0 le_rfl
  simp [Ingredient.validate_quantity, MinValueValidator] at h0

/-- Claim C7 as amended: stored ingredient quantities are nonnegative —
validation accepts a quantity exactly when it is at least 0, so any attempt
to create or update an ingredient with a negative quantity is rejected,
while 0 is accepted. -/

theorem ingredient_quantity_nonneg (q : ℚ) :
    Ingredient.validate_quantity q = true ↔ 0 ≤ q := by
  simp [Ingredient.validate_quantity, MinValueValidator]

/-- Filtering a list with a conjunction of predicates yields no more elements
than filtering with one conjunct. -/

theorem length_filter_and_le {α : Type} (p r : α → Bool) (l : List α) :
    (l.filter (fun a => p a && r a)).length ≤ (l.filter r).length := by
  induction l with
  | nil => simp
  | cons a t ih =>
    by_cases hr : r a = true
    · by_cases hp : p a = true
      · simp [List.filter_cons, hr, hp]
        omega
      · simp only [Bool.not_eq_true] at hp
        simp [List.filter_cons, hr, hp]
        omega
    · simp only [Bool.not_eq_true] at hr
      simp [List.filter_cons, hr, ih]

/-- Claim C4: every recipe holds at most 3 images.  When a recipe already has
exactly 3, creating another image fails with a validation error and the store
is unchanged; with fewer than 3 the creation succeeds; and starting from a
store where every recipe has at most 3 images, both create and destroy leave
every recipe with at most 3 images. -/

theorem recipe_images_at_most_three
    (images : List RecipeImage) (recipe_pk new_id del_pk : Nat)
    (hinv : ∀ q, imageCount images q ≤ 3) :
    (imageCount images recipe_pk = 3 →
        RecipeImageViewSet.perform_create images recipe_pk new_id
          = (some ApiError.validation, images))
    ∧ (imageCount images recipe_pk < 3 →
        (RecipeImageViewSet.perform_create images recipe_pk new_id).1 = none)
    ∧ (∀ q, imageCount (RecipeImageViewSet.perform_create images recipe_pk new_id).2 q ≤ 3)
    ∧ (∀ q, imageCount (RecipeImageViewSet.destroy images recipe_pk del_pk) q ≤ 3) := by
  refine ⟨?_, ?_, ?_, ?_⟩
  · intro h3
    unfold RecipeImageViewSet.perform_create
    unfold imageCount at h3
    simp [h3]
  · intro hlt
    unfold RecipeImageViewSet.perform_create
    unfold imageCount at hlt
    simp only [beq_iff_eq]
    rw [if_neg (by omega)]
  · intro q
    unfold RecipeImageViewSet.perform_create
    by_cases h3 : (images.filter (fun im => im.recipe_id == recipe_pk)).length = 3
    · simp only [h3, beq_self_eq_true, if_true]
      exact hinv q
    · rw [if_neg (by simpa using h3)]
      unfold imageCount at hinv ⊢
      rw [List.filter_append, List.length_append]
      by_cases hq : recipe_pk = q
      · subst hq
        have := hinv recipe_pk
        simp only [List.filter_cons, List.filter_nil, beq_self_eq_true, if_true]
        simp only [List.length_cons, List.length_nil]
        omega
      · have : (([{ id := new_id, recipe_id := recipe_pk }] : List RecipeImage).filter
            (fun im => im.recipe_id == q)).length = 0 := by
          simp [List.filter_cons, hq]
        rw [this]
        have := hinv q
        omega
  · intro q
    unfold RecipeImageViewSet.destroy
    unfold imageCount at hinv ⊢
    rw [List.filter_comm]
    calc ((images.filter (fun im => im.recipe_id == q)).filter
            (fun im => !(im.id == del_pk && im.recipe_id == recipe_pk))).length
        ≤ (images.filter (fun im => im.recipe_id == q)).length :=
          List.length_filter_le _ _
      _ ≤ 3 := hinv q

/-- Concrete instance of `recipe_images_at_most_three`: a store with exactly
3 images of recipe 4; a fourth create fails with a validation error. -/

theorem recipe_images_at_most_three_witness :
    (imageCount [⟨1, 4⟩, ⟨2, 4⟩, ⟨3, 4⟩] 4 = 3 →
        RecipeImageViewSet.perform_create [⟨1, 4⟩, ⟨2, 4⟩, ⟨3, 4⟩] 4 9
          = (some ApiError.validation, [⟨1, 4⟩, ⟨2, 4⟩, ⟨3, 4⟩]))
    ∧ (imageCount [⟨1, 4⟩, ⟨2, 4⟩, ⟨3, 4⟩] 4 < 3 →
        (RecipeImageViewSet.perform_create [⟨1, 4⟩, ⟨2, 4⟩, ⟨3, 4⟩] 4 9).1 = none)
    ∧ (∀ q, imageCount (RecipeImageViewSet.perform_create [⟨1, 4⟩, ⟨2, 4⟩, ⟨3, 4⟩] 4 9).2 q ≤ 3)
    ∧ (∀ q, imageCount (RecipeImageViewSet.destroy [⟨1, 4⟩, ⟨2, 4⟩, ⟨3, 4⟩] 4 2) q ≤ 3) :=
  recipe_images_at_most_three [⟨1, 4⟩, ⟨2, 4⟩, ⟨3, 4⟩] 4 9 2
    (by
      intro q
      by_cases hq : q = 4
      · subst hq; decide
      · simp [imageCount, List.filter_cons, hq, Ne.symm hq])

/-- Claim C5: deleting a Category referenced by at least one Recipe fails
with the 409 conflict, the category store and the recipe store unchanged;
deleting a Category with no referencing recipe succeeds, removing exactly
that category and leaving the recipes unchanged. -/

theorem category_destroy_protected
    (categories : List Category) (recipes : List Recipe) (pk : Nat) :
    ((∃ r ∈ recipes, r.category_id = pk) →
        CategoryViewSet.destroy categories recipes pk
          = (some ApiError.conflict, categories, recipes)
        ∧ ApiError.conflict.statusCode = 409)
    ∧ ((∀ r ∈ recipes, r.category_id ≠ pk) →
        CategoryViewSet.destroy categories recipes pk
          = (none, categories.filter (fun c => !(c.id == pk)), recipes)) := by
  constructor
  · rintro ⟨r, hmem, hcat⟩
    unfold CategoryViewSet.destroy
    have : (recipes.filter (fun x => x.category_id == pk)).isEmpty = false := by
      rw [List.isEmpty_eq_false_iff_exists_mem]
      exact ⟨r, List.mem_filter.mpr ⟨hmem, by simp [hcat]⟩⟩
    rw [this]
    exact ⟨rfl, rfl⟩
  · intro hnone
    unfold CategoryViewSet.destroy
    have : recipes.filter (fun x => x.category_id == pk) = [] := by
      rw [List.filter_eq_nil_iff]
      intro r hmem
      simpa using hnone r hmem
    rw [this]
    rfl

/-- Concrete instance of `category_destroy_protected`: category 2 is
referenced by one recipe, so deleting it yields the 409 conflict; category 9
is unreferenced, so deleting it removes it from the store. -/

theorem category_destroy_protected_witness :
    (CategoryViewSet.destroy [⟨2, "Soups", "soups"⟩] [⟨1, 7, "pie", "bake", "pie", 2⟩] 2
        = (some ApiError.conflict, [⟨2, "Soups", "soups"⟩], [⟨1, 7, "pie", "bake", "pie", 2⟩])
      ∧ ApiError.conflict.statusCode = 409)
    ∧ CategoryViewSet.destroy [⟨9, "Misc", "misc"⟩] [⟨1, 7, "pie", "bake", "pie", 2⟩] 9
        = (none, [], [⟨1, 7, "pie", "bake", "pie", 2⟩]) :=
  ⟨(category_destroy_protected [⟨2, "Soups", "soups"⟩] [⟨1, 7, "pie", "bake", "pie", 2⟩] 2).1
      ⟨⟨1, 7, "pie", "bake", "pie", 2⟩, List.mem_singleton.mpr rfl, rfl⟩,
    (category_destroy_protected [⟨9, "Misc", "misc"⟩] [⟨1, 7, "pie", "bake", "pie", 2⟩] 9).2
      (by decide)⟩

/-- Claim C6: the average-rating endpoint returns `null` exactly when the
recipe has no ratings, and any value it returns is the arithmetic mean of the
values of all Ratings of that recipe (the returned value times the number of
those ratings equals their sum). -/

theorem average_rating_is_mean (ratings : List Rating) (recipe_id : Nat) :
    (RecipeViewSet.get_average_rating ratings recipe_id = none
      ↔ ratings.filter (fun rt => rt.recipe_id == recipe_id) = [])
    ∧ (∀ q, RecipeViewSet.get_average_rating ratings recipe_id = some q →
        q * ((ratings.filter (fun rt => rt.recipe_id == recipe_id)).length : ℚ)
          = ((ratings.filter (fun rt => rt.recipe_id == recipe_id)).map
              (fun rt => (rt.value : ℚ))).sum) := by
  constructor
  · unfold RecipeViewSet.get_average_rating Avg
    by_cases h : ratings.filter (fun rt => rt.recipe_id == recipe_id) = [] <;>
      simp [h]
  · intro q hq
    unfold RecipeViewSet.get_average_rating Avg at hq
    by_cases h : ((ratings.filter (fun rt => rt.recipe_id == recipe_id)).map
        (fun rt => (rt.value : ℚ))).isEmpty = true
    · rw [if_pos h] at hq
      cases hq
    · rw [if_neg (by simpa using h)] at hq
      have hlen : ((ratings.filter (fun rt => rt.recipe_id == recipe_id)).map
          (fun rt => (rt.value : ℚ))).length
          = (ratings.filter (fun rt => rt.recipe_id == recipe_id)).length :=
        List.length_map _ _
      have hne : ((ratings.filter (fun rt => rt.recipe_id == recipe_id)).length : ℚ) ≠ 0 := by
        simp only [Bool.not_eq_true, List.isEmpty_eq_false_iff_exists_mem] at h
        obtain ⟨x, hx⟩ := h
        have : (ratings.filter (fun rt => rt.recipe_id == recipe_id)).length ≠ 0 := by
          rw [← hlen]
          exact List.length_pos_of_mem hx |>.ne'
        exact_mod_cast this
      rw [Option.some_inj] at hq
      rw [← hq, hlen]
      field_simp

/-- Concrete instance of `average_rating_is_mean`: recipe 4 carries ratings
9 and 6, so the endpoint returns their mean and that mean times 2 is 15. -/

theorem average_rating_is_mean_witness :
    RecipeViewSet.get_average_rating [⟨1, 4, 7, 9⟩, ⟨2, 4, 8, 6⟩] 4 = some (15 / 2)
    ∧ ((15 / 2 : ℚ)
        * (([⟨1, 4, 7, 9⟩, ⟨2, 4, 8, 6⟩] : List Rating).filter
            (fun rt => rt.recipe_id == 4)).length
      = ((([⟨1, 4, 7, 9⟩, ⟨2, 4, 8, 6⟩] : List Rating).filter
            (fun rt => rt.recipe_id == 4)).map (fun rt => (rt.value : ℚ))).sum) :=
  ⟨by norm_num [RecipeViewSet.get_average_rating, Avg, List.filter, List.map],
    (average_rating_is_mean [⟨1, 4, 7, 9⟩, ⟨2, 4, 8, 6⟩] 4).2 (15 / 2)
      (by norm_num [RecipeViewSet.get_average_rating, Avg, List.filter, List.map])⟩

/-- Claim C9: the `value` field of a Rating admits exactly the integers
0, 1, ..., 10 — validation accepts a value iff it lies between 0 and 10
inclusive, so every other value is rejected. -/

theorem rating_value_between_zero_and_ten (v : Int) :
    Rating.validate_value v = true ↔ 0 ≤ v ∧ v ≤ 10 := by
  simp only [Rating.validate_value, Rating.rating_choices, List.any_cons,
    List.any_nil, Bool.or_eq_true, beq_iff_eq, Bool.false_eq_true, or_false]
  constructor
  · intro h
    rcases h with h | h | h | h | h | h | h | h | h | h | h <;> omega
  · rintro ⟨h0, h10⟩
    interval_cases v <;> simp

end RecipesApp
